import Mathlib

/-
Verification development for the au_hack multi-domain risk inference service.

The Python source is shallowly embedded over the rationals. Machine floats
are modelled as exact rationals; every numeric literal of the source appears
as the corresponding rational. Python int() truncation and round() banker
rounding are modelled explicitly. Opaque trained classifiers are modelled as
arbitrary function parameters, since the source treats them as black boxes
returning a class label and a three-class probability vector.
-/

namespace AuHack

/-- Model of a raw Python value arriving in a metric dictionary: the field can
be absent or None, a float NaN, a number, or a value on which float() raises
TypeError or ValueError. -/
inductive PyVal where
  | missing : PyVal
  | nan : PyVal
  | num : ℚ → PyVal
  | bad : PyVal
deriving DecidableEq, Repr

/-- clip_to_range from src/model/preprocessing.py: max(min_val, min(max_val, value)). -/
def clip_to_range (value lo hi : ℚ) : ℚ := max lo (min hi value)

/-- Python int() applied to a float: truncation toward zero. -/
def pyTrunc (q : ℚ) : ℤ := if 0 ≤ q then q.floor else q.ceil

/-- Python round() on a float with no digits argument: round half to even. -/
def pyRound (q : ℚ) : ℤ :=
  let f := q.floor
  let r := q - (f : ℚ)
  if r < 1/2 then f
  else if 1/2 < r then f + 1
  else if f % 2 = 0 then f else f + 1

/-- Input metric dictionary for the risk pipeline. Absent keys are represented
by PyVal.missing, matching dict.get returning None. -/
structure MetricBag where
  aqi : PyVal := .missing
  traffic_density : PyVal := .missing
  temperature : PyVal := .missing
  rainfall : PyVal := .missing
  hospital_load : PyVal := .missing
  respiratory_cases : PyVal := .missing
  environmental_risk_prob : PyVal := .missing
  crop_supply_index : PyVal := .missing
  food_price_index : PyVal := .missing
  supply_disruption_events : PyVal := .missing
deriving DecidableEq, Repr

/-! Preprocessing, from src/model/preprocessing.py. Each field follows the
same try/except shape of the source: a PyVal.bad value makes float() raise,
the except branch then returns the raw default; otherwise handle_missing
substitutes the default for None/NaN and the value is transformed and
clipped. -/

/-- Generic numeric field: handle_missing then float() then clip. -/
def procField (v : PyVal) (d lo hi : ℚ) : ℚ :=
  match v with
  | .bad => d
  | .missing => clip_to_range d lo hi
  | .nan => clip_to_range d lo hi
  | .num q => clip_to_range q lo hi

/-- Temperature field: Kelvin detection (subtract 273.15 when above 200) then clip. -/
def procTempField (v : PyVal) (d lo hi : ℚ) : ℚ :=
  let kelvinFix : ℚ → ℚ := fun q => if q > 200 then q - 5463/20 else q
  match v with
  | .bad => d
  | .missing => clip_to_range (kelvinFix d) lo hi
  | .nan => clip_to_range (kelvinFix d) lo hi
  | .num q => clip_to_range (kelvinFix q) lo hi

/-- Traffic density field: int(round(float(x))) then clip. -/
def procTrafficField (v : PyVal) (d : ℚ) (lo hi : ℚ) : ℚ :=
  match v with
  | .bad => d
  | .missing => clip_to_range ((pyRound d : ℚ)) lo hi
  | .nan => clip_to_range ((pyRound d : ℚ)) lo hi
  | .num q => clip_to_range ((pyRound q : ℚ)) lo hi

/-- Integer-count field: int(float(x)) then clip. -/
def procIntField (v : PyVal) (d : ℚ) (lo hi : ℚ) : ℚ :=
  match v with
  | .bad => d
  | .missing => clip_to_range ((pyTrunc d : ℚ)) lo hi
  | .nan => clip_to_range ((pyTrunc d : ℚ)) lo hi
  | .num q => clip_to_range ((pyTrunc q : ℚ)) lo hi

/-- Hospital load field: percent detection (divide by 100 when above 1) then clip. -/
def procLoadField (v : PyVal) (d lo hi : ℚ) : ℚ :=
  let pctFix : ℚ → ℚ := fun q => if q > 1 then q / 100 else q
  match v with
  | .bad => d
  | .missing => clip_to_range (pctFix d) lo hi
  | .nan => clip_to_range (pctFix d) lo hi
  | .num q => clip_to_range (pctFix q) lo hi

/-- Output of preprocess_environmental_metrics. -/
structure EnvMetrics where
  aqi : ℚ
  traffic_density : ℚ
  temperature : ℚ
  rainfall : ℚ
deriving DecidableEq, Repr

/-- Output of preprocess_health_metrics. -/
structure HealthMetrics where
  aqi : ℚ
  hospital_load : ℚ
  respiratory_cases : ℚ
  temperature : ℚ
  environmental_risk_prob : ℚ
deriving DecidableEq, Repr

/-- Output of preprocess_food_metrics. -/
structure FoodMetrics where
  crop_supply_index : ℚ
  food_price_index : ℚ
  rainfall : ℚ
  temperature : ℚ
  supply_disruption_events : ℚ
deriving DecidableEq, Repr

/-- preprocess_environmental_metrics from src/model/preprocessing.py. -/
def preprocess_environmental_metrics (m : MetricBag) : EnvMetrics :=
  { aqi := procField m.aqi 100 0 500
    traffic_density := procTrafficField m.traffic_density 1 0 2
    temperature := procTempField m.temperature 30 0 50
    rainfall := procField m.rainfall 20 0 200 }

/-- preprocess_health_metrics from src/model/preprocessing.py, called with
env_risk_prob equal to None as preprocess_all_metrics does, so the
environmental_risk_prob field comes from the input bag or its default. -/
def preprocess_health_metrics (m : MetricBag) : HealthMetrics :=
  { aqi := procField m.aqi 100 0 500
    hospital_load := procLoadField m.hospital_load (65/100) 0 1
    respiratory_cases := procIntField m.respiratory_cases 200 0 10000
    temperature := procTempField m.temperature 30 0 50
    environmental_risk_prob := procField m.environmental_risk_prob (1/2) 0 1 }

/-- preprocess_food_metrics from src/model/preprocessing.py. -/
def preprocess_food_metrics (m : MetricBag) : FoodMetrics :=
  { crop_supply_index := procField m.crop_supply_index 75 0 100
    food_price_index := procField m.food_price_index 100 50 200
    rainfall := procField m.rainfall 40 0 200
    temperature := procTempField m.temperature 30 0 50
    supply_disruption_events := procIntField m.supply_disruption_events 1 0 10 }

/-- preprocess_all_metrics from src/model/preprocessing.py: the three
per-domain passes over the same bag (the assumptions list is bookkeeping of
messages only and is not modelled). -/
def preprocess_all_metrics (m : MetricBag) : EnvMetrics × HealthMetrics × FoodMetrics :=
  (preprocess_environmental_metrics m, preprocess_health_metrics m, preprocess_food_metrics m)

/-! Classifier abstraction. The trained per-domain models are opaque: each
exposes predict_with_proba returning a class label and a three-class
probability vector (src/model/models/base_model.py). They are modelled as
arbitrary total functions from the feature vector to such an output, so every
theorem quantifying over a Classifiers value holds for any trained model. -/

/-- Three-class probability assignment as returned by predict_with_proba. -/
structure Dist where
  low : ℚ
  medium : ℚ
  high : ℚ
deriving DecidableEq, Repr

/-- Single-sample output of predict_with_proba: predicted class label,
per-class probabilities, and confidence (probability of the predicted class). -/
structure ClfOutput where
  cls : String
  dist : Dist
  confidence : ℚ
deriving DecidableEq, Repr

/-- The three opaque trained models held by an engine. -/
structure Classifiers where
  env : EnvMetrics → ClfOutput
  health : HealthMetrics → ClfOutput
  food : FoodMetrics → ClfOutput

/-! CascadingRiskEngine, from src/model/cascading_engine.py. -/

/-- RESILIENCE_WEIGHTS of CascadingRiskEngine: environmental 0.35, health
0.40, food 0.25. -/
def RESILIENCE_WEIGHTS_env : ℚ := 35/100

/-- Health component of RESILIENCE_WEIGHTS. -/
def RESILIENCE_WEIGHTS_health : ℚ := 40/100

/-- Food component of RESILIENCE_WEIGHTS. -/
def RESILIENCE_WEIGHTS_food : ℚ := 25/100

/-- CascadingRiskEngine._calculate_resilience_score: weighted risk, then
100 * (1 - weighted), then int(max(0, min(100, resilience))). Python int()
truncates toward zero. -/
def calculate_resilience_score (env_high_prob health_high_prob food_high_prob : ℚ) : ℤ :=
  let weighted_risk :=
    RESILIENCE_WEIGHTS_env * env_high_prob +
    RESILIENCE_WEIGHTS_health * health_high_prob +
    RESILIENCE_WEIGHTS_food * food_high_prob
  let resilience := 100 * (1 - weighted_risk)
  pyTrunc (max 0 (min 100 resilience))

/-- Per-domain entry of the dictionary returned by predict_cascading_risks:
keys risk, prob and probabilities. -/
structure DomainResult where
  risk : String
  prob : ℚ
  probabilities : Dist
deriving DecidableEq, Repr

/-- Dictionary-get on a DomainResult for a string-valued key. The underlying
Python dict contains exactly the keys risk, prob and probabilities; risk is
its only string-valued key, so get(k, default) for a string read returns the
risk field when k is the string risk and the default otherwise. -/
def DomainResult.getStr (r : DomainResult) (key : String) (dflt : String) : String :=
  if key = "risk" then r.risk else dflt

/-- Dictionary-get on a DomainResult for a scalar numeric key: prob is the
only scalar numeric key of the dict. -/
def DomainResult.getNum (r : DomainResult) (key : String) (dflt : ℚ) : ℚ :=
  if key = "prob" then r.prob else dflt

/-- Result dictionary of CascadingRiskEngine.predict_cascading_risks. The
entropy-plus-margin confidence block is real-valued (natural logarithms) and
no claim depends on it, so it is not carried. -/
structure CascadeResult where
  environmental : DomainResult
  health : DomainResult
  food_security : DomainResult
  resilience_score : ℤ
  env_risk_injected_to_health : ℚ
deriving DecidableEq, Repr

/-- Feature row X_env built in step 1 of predict_cascading_risks. -/
def envFeaturesOf (m : MetricBag) : EnvMetrics := preprocess_environmental_metrics m

/-- Feature row X_health built in step 2 of predict_cascading_risks: the
preprocessed health metrics with the environmental probability of high
overwriting the environmental_risk_prob entry. -/
def healthFeaturesOf (m : MetricBag) (env_high_prob : ℚ) : HealthMetrics :=
  { preprocess_health_metrics m with environmental_risk_prob := env_high_prob }

/-- Feature row X_food built in step 3 of predict_cascading_risks. -/
def foodFeaturesOf (m : MetricBag) : FoodMetrics := preprocess_food_metrics m

/-- CascadingRiskEngine.predict_cascading_risks from
src/model/cascading_engine.py: environmental prediction, health prediction
with the environmental probability of high injected as a feature, food
prediction, resilience score, and the cascading_effect echo. -/
def predict_cascading_risks (clf : Classifiers) (m : MetricBag) : CascadeResult :=
  let env_result := clf.env (envFeaturesOf m)
  let env_probs := env_result.dist
  let env_high_prob := env_probs.high
  let health_result := clf.health (healthFeaturesOf m env_high_prob)
  let health_probs := health_result.dist
  let food_result := clf.food (foodFeaturesOf m)
  let food_probs := food_result.dist
  { environmental := { risk := env_result.cls, prob := env_high_prob, probabilities := env_probs }
    health := { risk := health_result.cls, prob := health_probs.high, probabilities := health_probs }
    food_security := { risk := food_result.cls, prob := food_probs.high, probabilities := food_probs }
    resilience_score := calculate_resilience_score env_high_prob health_probs.high food_probs.high
    env_risk_injected_to_health := env_high_prob }

/-! RiskEngine, from src/model/risk_engine.py. Its predict_environmental and
predict_food_security wrap the per-domain classifier behind a threshold
override for extreme inputs. -/

/-- Single-sample prediction dictionary returned by the RiskEngine wrappers. -/
structure EnginePrediction where
  risk_class : String
  probabilities : Dist
  confidence : ℚ
deriving DecidableEq, Repr

/-- RiskEngine.predict_environmental: aqi above 300 forces the pinned
high-risk distribution before the classifier is consulted. -/
def RiskEngine.predict_environmental (clfEnv : EnvMetrics → ClfOutput)
    (aqi traffic_density temperature rainfall : ℚ) : EnginePrediction :=
  if aqi > 300 then
    { risk_class := "high"
      probabilities := { low := 2/100, medium := 8/100, high := 90/100 }
      confidence := 99/100 }
  else
    let result := clfEnv { aqi := aqi, traffic_density := traffic_density,
                           temperature := temperature, rainfall := rainfall }
    { risk_class := result.cls, probabilities := result.dist, confidence := result.confidence }

/-- RiskEngine.predict_food_security: crop_supply_index below 30 forces the
pinned high-risk distribution before the classifier is consulted. -/
def RiskEngine.predict_food_security (clfFood : FoodMetrics → ClfOutput)
    (crop_supply_index food_price_index rainfall temperature supply_disruption_events : ℚ) :
    EnginePrediction :=
  if crop_supply_index < 30 then
    { risk_class := "high"
      probabilities := { low := 1/100, medium := 4/100, high := 95/100 }
      confidence := 99/100 }
  else
    let result := clfFood { crop_supply_index := crop_supply_index,
                            food_price_index := food_price_index, rainfall := rainfall,
                            temperature := temperature,
                            supply_disruption_events := supply_disruption_events }
    { risk_class := result.cls, probabilities := result.dist, confidence := result.confidence }

/-! RealtimeStateManager, from src/api/realtime.py. Wall-clock instants are
rationals (seconds); datetime and time.time values live on the same axis. -/

/-- WINDOW_SIZE of RealtimeStateManager. -/
def WINDOW_SIZE : ℕ := 60

/-- STALE_THRESHOLD of RealtimeStateManager, in seconds. -/
def STALE_THRESHOLD : ℚ := 60

/-- MAX_INFERENCE_RATE of RealtimeStateManager, per second. -/
def MAX_INFERENCE_RATE : ℚ := 2

/-- Latest environmental slot. -/
structure EnvSlot where
  aqi : Option ℚ := Option.none
  temperature : Option ℚ := Option.none
  humidity : Option ℚ := Option.none
  timestamp : Option ℚ := Option.none
deriving DecidableEq, Repr

/-- Latest health slot. -/
structure HealthSlot where
  hospital_load : Option ℚ := Option.none
  respiratory_cases : Option ℚ := Option.none
  timestamp : Option ℚ := Option.none
deriving DecidableEq, Repr

/-- Latest food slot. -/
structure FoodSlot where
  price_volatility : Option ℚ := Option.none
  supply_index : Option ℚ := Option.none
  timestamp : Option ℚ := Option.none
deriving DecidableEq, Repr

/-- PredictionRecord of src/api/realtime.py. The inference_time_ms field is a
wall-clock duration measurement and carries no modelled content. -/
structure PredictionRecord where
  timestamp : ℚ
  environmental_risk : String
  environmental_prob : ℚ
  health_risk : String
  health_prob : ℚ
  food_security_risk : String
  food_security_prob : ℚ
  confidence : ℚ
deriving DecidableEq, Repr

/-- Mutable state of a RealtimeStateManager instance. -/
structure RealtimeState where
  environmental_state : EnvSlot
  health_state : HealthSlot
  food_state : FoodSlot
  prediction_history : List PredictionRecord
  last_inference_time : ℚ
deriving DecidableEq, Repr

/-- Loop body of get_confidence for one domain slot: data freshness tiers
keyed off STALE_THRESHOLD, default 0.5 for a missing timestamp. -/
def freshnessConf (now : ℚ) (ts : Option ℚ) : ℚ :=
  match ts with
  | Option.none => 1/2
  | Option.some t =>
    let age_seconds := now - t
    if age_seconds < STALE_THRESHOLD then 1
    else if age_seconds < STALE_THRESHOLD * 2 then 8/10
    else if age_seconds < STALE_THRESHOLD * 5 then 1/2
    else 3/10

/-- RealtimeStateManager.get_confidence: the freshness values of the three
slots, averaged. -/
def get_confidence (now : ℚ) (s : RealtimeState) : ℚ :=
  let confidences :=
    [s.environmental_state.timestamp, s.health_state.timestamp, s.food_state.timestamp].map
      (freshnessConf now)
  confidences.sum / confidences.length

/-- Python x or d on a numeric-or-None slot value: d when x is None or zero
(zero is falsy), else x. -/
def pyOrQ (v : Option ℚ) (d : ℚ) : ℚ :=
  match v with
  | Option.none => d
  | Option.some x => if x = 0 then d else x

/-- Merged metric dictionary returned by get_merged_state. -/
structure MergedState where
  aqi : ℚ
  temperature : ℚ
  humidity : ℚ
  hospital_load : ℚ
  respiratory_cases : ℚ
  bed_occupancy_percent : ℚ
  price_volatility : ℚ
  crop_supply_index : ℚ
  confidence : ℚ
deriving DecidableEq, Repr

/-- RealtimeStateManager.get_merged_state: every slot field defaulted through
Python or, so falsy stored values (None and 0) fall back to the default. -/
def get_merged_state (now : ℚ) (s : RealtimeState) : MergedState :=
  { aqi := pyOrQ s.environmental_state.aqi 100
    temperature := pyOrQ s.environmental_state.temperature 25
    humidity := pyOrQ s.environmental_state.humidity 60
    hospital_load := pyOrQ s.health_state.hospital_load (1/2)
    respiratory_cases := pyOrQ s.health_state.respiratory_cases 100
    bed_occupancy_percent := (pyOrQ s.health_state.hospital_load (1/2)) * 100
    price_volatility := pyOrQ s.food_state.price_volatility (1/10)
    crop_supply_index := pyOrQ s.food_state.supply_index 80
    confidence := get_confidence now s }

/-- The metrics dictionary built inside run_inference. Its keys are
temperature, aqi, humidity, respiratory_cases, price_volatility,
bed_occupancy_percent and crop_supply_index; of these the preprocessor only
reads aqi, temperature, respiratory_cases and crop_supply_index, and every
key the preprocessor looks for but the dictionary lacks (traffic_density,
rainfall, hospital_load, environmental_risk_prob, food_price_index,
supply_disruption_events) is a missing field. -/
def inferenceMetrics (state : MergedState) : MetricBag :=
  { temperature := .num state.temperature
    aqi := .num state.aqi
    respiratory_cases := .num state.respiratory_cases
    crop_supply_index := .num state.crop_supply_index }

/-- Append on a deque with maxlen WINDOW_SIZE: oldest records are dropped
once the capacity is exceeded. -/
def dequeAppend (h : List PredictionRecord) (r : PredictionRecord) : List PredictionRecord :=
  let h2 := h ++ [r]
  if WINDOW_SIZE < h2.length then h2.drop (h2.length - WINDOW_SIZE) else h2

/-- RealtimeStateManager.run_inference: the rate gate rejects a call less
than 1 / MAX_INFERENCE_RATE seconds after the last gate-passing call,
returning no prediction and leaving the state untouched; otherwise the gate
timestamp advances, the merged state is scored through
predict_cascading_risks, and the record is built by dictionary reads
get(risk_level, default) and get(high_prob, default) against a result whose
keys are risk and prob, then appended to the bounded history. The classifier
functions are total, so the except branch of the source never runs here. -/
def run_inference (clf : Classifiers) (now : ℚ) (s : RealtimeState) :
    Option PredictionRecord × RealtimeState :=
  if now - s.last_inference_time < 1 / MAX_INFERENCE_RATE then
    (Option.none, s)
  else
    let s1 := { s with last_inference_time := now }
    let state := get_merged_state now s
    let confidence := state.confidence
    let result := predict_cascading_risks clf (inferenceMetrics state)
    let record : PredictionRecord :=
      { timestamp := now
        environmental_risk := result.environmental.getStr "risk_level" "medium"
        environmental_prob := result.environmental.getNum "high_prob" (1/2)
        health_risk := result.health.getStr "risk_level" "low"
        health_prob := result.health.getNum "high_prob" (1/5)
        food_security_risk := result.food_security.getStr "risk_level" "low"
        food_security_prob := result.food_security.getNum "high_prob" (1/10)
        confidence := confidence }
    (Option.some record, { s1 with prediction_history := dequeAppend s1.prediction_history record })

/-- The wall-clock instants at which a sequence of run_inference calls,
issued at the given times, actually executes (passes the rate gate). -/
def traceExec (clf : Classifiers) : List ℚ → RealtimeState → List ℚ
  | [], _ => []
  | t :: ts, s =>
    let step := run_inference clf t s
    (if step.1.isSome then [t] else []) ++ traceExec clf ts step.2

/-! Scenario signal extraction and delta computation, from
src/api/scenario_deltas.py (wired to the scenario-delta endpoint) and
src/api/scenario_interpreter.py (the table-driven variant). Prompts are
case-folded and matched by substring containment. -/

/-- Lowercased character sequence of a prompt (prompt.lower()). -/
def lowerChars (s : String) : List Char := s.toList.map Char.toLower

/-- Whether the first list is an initial segment of the second. -/
def startsWithChars : List Char → List Char → Bool
  | [], _ => true
  | _ :: _, [] => false
  | c :: cs, h :: hs => (c == h) && startsWithChars cs hs

/-- Python substring containment kw in text over character lists. -/
def hasSubstr (needle : List Char) : List Char → Bool
  | [] => startsWithChars needle []
  | h :: hs => startsWithChars needle (h :: hs) || hasSubstr needle hs

/-- any(kw in prompt_lower for kw in keywords). -/
def anyKwMatch (p : List Char) (kws : List String) : Bool :=
  kws.any (fun kw => hasSubstr kw.toList p)

/-- KEYWORDS primary_events table of ScenarioDeltas (identical in
ScenarioInterpreter), in source order. -/
def primaryEventsKw : List (String × List String) :=
  [("flood", ["flood", "flooding", "heavy rain", "monsoon", "waterlogging", "deluge"]),
   ("heatwave", ["heatwave", "heat", "hot", "temperature spike", "scorching", "sun"]),
   ("drought", ["drought", "dry", "arid", "water shortage", "no rain"]),
   ("pollution", ["pollution", "smog", "aqi", "air quality", "haze", "toxic"]),
   ("cyclone", ["cyclone", "storm", "hurricane", "wind", "gale"])]

/-- KEYWORDS severity table, in source order (first match wins). -/
def severityKw : List (String × List String) :=
  [("high", ["severe", "extreme", "catastrophic", "massive", "deadly", "critical", "major"]),
   ("low", ["mild", "minor", "slight", "small", "low"]),
   ("moderate", ["moderate", "medium", "average"])]

/-- KEYWORDS duration table, in source order (first match wins). -/
def durationKw : List (String × List String) :=
  [("prolonged", ["prolonged", "long", "weeks", "month", "extended", "chronic", "persistent"]),
   ("short", ["short", "brief", "flash", "sudden", "day", "hour"]),
   ("moderate", ["moderate", "medium"])]

/-- KEYWORDS secondary_impacts table of ScenarioDeltas, in source order. -/
def deltasSecondaryKw : List (String × List String) :=
  [("transport_disruption", ["traffic", "transport", "road", "commute", "stuck", "jam"]),
   ("hospital_access_reduction", ["hospital", "medical", "ambulance", "health", "access"]),
   ("power_outage", ["power", "electricity", "blackout", "outage", "light"]),
   ("water_shortage", ["water supply", "dry tap", "drinking water"]),
   ("food_supply_disruption", ["food", "crop", "supply", "market", "shortage"])]

/-- KEYWORDS secondary_impacts table of ScenarioInterpreter: only three
impact kinds, in source order. -/
def interpSecondaryKw : List (String × List String) :=
  [("transport_disruption", ["traffic", "transport", "road", "commute", "stuck", "jam"]),
   ("hospital_access_reduction", ["hospital", "medical", "ambulance", "health", "access"]),
   ("food_supply_disruption", ["food", "crop", "supply", "market", "shortage"])]

/-- All table rows whose keyword set matches the prompt, in table order. -/
def matchedEvents (tbl : List (String × List String)) (p : List Char) : List String :=
  (tbl.filter (fun e => anyKwMatch p e.2)).map (fun e => e.1)

/-- First table row whose keyword set matches the prompt, else the default. -/
def firstMatch (tbl : List (String × List String)) (p : List Char) (dflt : String) : String :=
  match tbl.find? (fun e => anyKwMatch p e.2) with
  | Option.some e => e.1
  | Option.none => dflt

/-- ScenarioSignals of src/api/schemas.py. -/
structure ScenarioSignals where
  primary_events : List String
  duration : String
  severity : String
  secondary_impacts : List String
  confidence : String
deriving DecidableEq, Repr

/-- ScenarioDeltas.extract_scenario_signals from src/api/scenario_deltas.py:
match count is primary plus secondary matches plus one when the extracted
severity differs from moderate; empty primary events are replaced by the
sentinel none after the count is taken. -/
def ScenarioDeltas.extract_scenario_signals (prompt : String) : ScenarioSignals :=
  let p := lowerChars prompt
  let primary_events := matchedEvents primaryEventsKw p
  let severity := firstMatch severityKw p "moderate"
  let duration := firstMatch durationKw p "moderate"
  let secondary_impacts := matchedEvents deltasSecondaryKw p
  let match_count := primary_events.length + secondary_impacts.length +
    (if severity = "moderate" then 0 else 1)
  let confidence := if 2 ≤ match_count then "high"
    else if match_count = 1 then "medium" else "low"
  { primary_events := if primary_events.isEmpty then ["none"] else primary_events
    duration := duration
    severity := severity
    secondary_impacts := secondary_impacts
    confidence := confidence }

/-- ScenarioInterpreter.extract_signals from src/api/scenario_interpreter.py:
same keyword matching, but the match count is primary plus secondary matches
only. -/
def ScenarioInterpreter.extract_signals (prompt : String) : ScenarioSignals :=
  let p := lowerChars prompt
  let events := matchedEvents primaryEventsKw p
  let severity := firstMatch severityKw p "moderate"
  let duration := firstMatch durationKw p "moderate"
  let impacts := matchedEvents interpSecondaryKw p
  let match_count := events.length + impacts.length
  let conf := if 2 ≤ match_count then "high"
    else if match_count = 1 then "medium" else "low"
  { primary_events := if events.isEmpty then ["none"] else events
    duration := duration
    severity := severity
    secondary_impacts := impacts
    confidence := conf }

/-- Delta accumulator of both delta engines. -/
structure Deltas where
  aqi_delta : ℚ
  temperature_delta : ℚ
  hospital_load_delta : ℚ
  crop_supply_delta : ℚ
deriving DecidableEq, Repr

/-- Severity multiplier dictionary with default 1.0, shared verbatim by
scenario_deltas.py and SCENARIO_CONFIG of scenario_interpreter.py. -/
def sevMult (severity : String) : ℚ :=
  if severity = "low" then 1/2
  else if severity = "moderate" then 1
  else if severity = "high" then 3/2
  else 1

/-- Duration multiplier dictionary with default 1.0, shared verbatim by both
delta engines. -/
def durMult (duration : String) : ℚ :=
  if duration = "short" then 4/5
  else if duration = "moderate" then 1
  else if duration = "prolonged" then 3/2
  else 1

/-- active_events of both delta engines: the primary list unless it is empty
or the sentinel list containing none. -/
def activeEvents (primary_events : List String) : List String :=
  if primary_events.isEmpty then []
  else if primary_events = ["none"] then []
  else primary_events

/-- Loop body of ScenarioDeltas.get_deltas_from_signals for one primary
event: the if/elif chain of hand-written increments of the source. -/
def deltasEventStep (severity : String) (sev_mult dur_mult : ℚ) (d : Deltas)
    (primary : String) : Deltas :=
  if primary = "flood" then
    { aqi_delta := d.aqi_delta + (-10) * sev_mult
      temperature_delta := d.temperature_delta + (-4) * sev_mult
      hospital_load_delta := d.hospital_load_delta + 12 * sev_mult * dur_mult
      crop_supply_delta := d.crop_supply_delta + (-8) * sev_mult * dur_mult }
  else if primary = "heatwave" then
    { aqi_delta := d.aqi_delta + 25 * sev_mult
      temperature_delta := d.temperature_delta + 5 * (if severity = "high" then 6/5 else 1)
      hospital_load_delta := d.hospital_load_delta + 15 * sev_mult * dur_mult
      crop_supply_delta := d.crop_supply_delta + (-10) * dur_mult }
  else if primary = "pollution" then
    { aqi_delta := d.aqi_delta + 100 * sev_mult
      temperature_delta := d.temperature_delta + 1
      hospital_load_delta := d.hospital_load_delta + 10 * sev_mult
      crop_supply_delta := d.crop_supply_delta + (-2) }
  else if primary = "drought" then
    { aqi_delta := d.aqi_delta + 15 * sev_mult
      temperature_delta := d.temperature_delta + 3
      hospital_load_delta := d.hospital_load_delta + 8 * dur_mult
      crop_supply_delta := d.crop_supply_delta + (-25) * dur_mult }
  else if primary = "cyclone" then
    { aqi_delta := d.aqi_delta + (-15) * sev_mult
      temperature_delta := d.temperature_delta + (-3)
      hospital_load_delta := d.hospital_load_delta + 20 * sev_mult
      crop_supply_delta := d.crop_supply_delta + (-15) * sev_mult }
  else d

/-- ScenarioDeltas.get_deltas_from_signals from src/api/scenario_deltas.py
(the later definition in the file, which is the one Python binds): sum of
per-event increments over the active events, then fixed secondary add-ons.
The description string is presentation only and is not carried. -/
def ScenarioDeltas.get_deltas_from_signals (signals : ScenarioSignals) : Deltas :=
  let sev_mult := sevMult signals.severity
  let dur_mult := durMult signals.duration
  let base := (activeEvents signals.primary_events).foldl
    (deltasEventStep signals.severity sev_mult dur_mult)
    { aqi_delta := 0, temperature_delta := 0, hospital_load_delta := 0, crop_supply_delta := 0 }
  let d1 := if signals.secondary_impacts.contains "transport_disruption" then
      { base with crop_supply_delta := base.crop_supply_delta - 5,
                  hospital_load_delta := base.hospital_load_delta + 15 }
    else base
  let d2 := if signals.secondary_impacts.contains "hospital_access_reduction" then
      { d1 with hospital_load_delta := d1.hospital_load_delta + 25 }
    else d1
  if signals.secondary_impacts.contains "food_supply_disruption" then
    { d2 with crop_supply_delta := d2.crop_supply_delta - 10 }
  else d2

/-- SCENARIO_CONFIG base_impacts table of scenario_interpreter.py, as
(aqi, temp, hospital, food) rows; an unknown event yields no row and the
source then reads every component as 0. -/
def baseImpacts (event : String) : Option (ℚ × ℚ × ℚ × ℚ) :=
  if event = "flood" then Option.some (-10, -4, 12, -8)
  else if event = "heatwave" then Option.some (25, 5, 15, -10)
  else if event = "pollution" then Option.some (100, 1, 10, -2)
  else if event = "drought" then Option.some (15, 3, 8, -25)
  else if event = "cyclone" then Option.some (-15, -3, 20, -15)
  else Option.none

/-- Loop body of ScenarioSimulator.get_deltas for one primary event: every
component scaled uniformly from the base row, temperature through the
heatwave-at-high bonus factor. -/
def interpEventStep (severity : String) (s_mult d_mult : ℚ) (d : Deltas)
    (event : String) : Deltas :=
  let base := (baseImpacts event).getD (0, 0, 0, 0)
  { aqi_delta := d.aqi_delta + base.1 * s_mult
    temperature_delta := d.temperature_delta +
      base.2.1 * (if severity = "high" ∧ event = "heatwave" then 6/5 else 1)
    hospital_load_delta := d.hospital_load_delta + base.2.2.1 * s_mult * d_mult
    crop_supply_delta := d.crop_supply_delta + base.2.2.2 * s_mult * d_mult }

/-- SCENARIO_CONFIG secondary_impacts table of scenario_interpreter.py, as
(hospital, food) rows, defaulting to zero for unknown impacts. -/
def interpSecondaryRow (impact : String) : ℚ × ℚ :=
  if impact = "transport_disruption" then (15, -5)
  else if impact = "hospital_access_reduction" then (25, 0)
  else if impact = "food_supply_disruption" then (0, -10)
  else (0, 0)

/-- ScenarioSimulator.get_deltas from src/api/scenario_interpreter.py:
table-driven sum over active events followed by the secondary add-on loop. -/
def ScenarioSimulator.get_deltas (signals : ScenarioSignals) : Deltas :=
  let s_mult := sevMult signals.severity
  let d_mult := durMult signals.duration
  let active := if signals.primary_events = ["none"] then [] else signals.primary_events
  let base := active.foldl (interpEventStep signals.severity s_mult d_mult)
    { aqi_delta := 0, temperature_delta := 0, hospital_load_delta := 0, crop_supply_delta := 0 }
  signals.secondary_impacts.foldl (fun d impact =>
    let row := interpSecondaryRow impact
    { d with hospital_load_delta := d.hospital_load_delta + row.1,
             crop_supply_delta := d.crop_supply_delta + row.2 }) base

/-! Specification-side definitions, written from the wording of spec.md, to
be compared with the source-derived definitions above. -/

/-- Specification wording of the per-slot freshness value as a function of
age: 1.0 under 60 seconds, 0.8 under 120, 0.5 under 300, 0.3 otherwise. -/
def specAgeConf (age : ℚ) : ℚ :=
  if age < 60 then 1
  else if age < 120 then 8/10
  else if age < 300 then 1/2
  else 3/10

/-- Specification wording of the per-slot freshness value: the age tiers for
a stamped slot and 0.5 for a slot with no timestamp. -/
def specSlotConf (now : ℚ) (ts : Option ℚ) : ℚ :=
  match ts with
  | Option.none => 1/2
  | Option.some t => specAgeConf (now - t)

/-- Bridge between the loop body of get_confidence and the specification
tiers: the source thresholds STALE_THRESHOLD, twice and five times it are
exactly 60, 120 and 300 seconds. -/
theorem freshnessConf_eq_spec (now : ℚ) (ts : Option ℚ) :
    freshnessConf now ts = specSlotConf now ts := by
  cases ts with
  | none => rfl
  | some t =>
    simp only [freshnessConf, specSlotConf, specAgeConf, STALE_THRESHOLD]
    norm_num

/-- C8: the aggregate data-freshness confidence equals the average over the
three slots of the per-slot value (1.0 if the age is under 60 seconds, 0.8
if under 120, 0.5 if under 300, 0.3 otherwise, and 0.5 when the slot has no
timestamp), and for a stamped slot the per-slot value is monotone
non-increasing in age. -/
theorem freshness_confidence_tiers_and_monotone :
    (∀ (now : ℚ) (s : RealtimeState),
      get_confidence now s =
        (specSlotConf now s.environmental_state.timestamp +
         specSlotConf now s.health_state.timestamp +
         specSlotConf now s.food_state.timestamp) / 3)
    ∧ (∀ a₁ a₂ : ℚ, a₁ ≤ a₂ → specAgeConf a₂ ≤ specAgeConf a₁)
    ∧ (∀ (now t : ℚ), freshnessConf now (Option.some t) = specAgeConf (now - t)) := by
  refine ⟨?_, ?_, ?_⟩
  · intro now s
    simp only [get_confidence, List.map_cons, List.map_nil, List.sum_cons, List.sum_nil,
      List.length_cons, List.length_nil, freshnessConf_eq_spec]
    push_cast
    ring
  · intro a₁ a₂ h
    unfold specAgeConf
    split_ifs <;> linarith
  · intro now t
    exact freshnessConf_eq_spec now (Option.some t)

/-- C8 witness: the monotonicity conjunct applied at ages 30 and 70. -/
theorem freshness_confidence_tiers_and_monotone_witness :
    specAgeConf 70 ≤ specAgeConf 30 :=
  freshness_confidence_tiers_and_monotone.2.1 30 70 (by decide)

/-- C9: the reported cascade value equals the environmental probability of
high of the same prediction, which is the classifier output on the
environmental features, and the health distribution is computed from the
health features carrying exactly that value in the environmental_risk_prob
slot. -/
theorem cascade_echo_injected_prob :
    ∀ (clf : Classifiers) (m : MetricBag),
      (predict_cascading_risks clf m).env_risk_injected_to_health =
          (predict_cascading_risks clf m).environmental.prob
      ∧ (predict_cascading_risks clf m).environmental.prob =
          (clf.env (envFeaturesOf m)).dist.high
      ∧ (predict_cascading_risks clf m).health.probabilities =
          (clf.health (healthFeaturesOf m
            (predict_cascading_risks clf m).env_risk_injected_to_health)).dist
      ∧ ∀ x : ℚ, (healthFeaturesOf m x).environmental_risk_prob = x :=
  fun _ _ => ⟨rfl, rfl, rfl, fun _ => rfl⟩

/-- C10: get_merged_state substitutes the documented default whenever the
stored field is falsy, so a stored zero observation is replaced exactly like
an empty slot: aqi 0 becomes 100, temperature 0 becomes 25, hospital_load 0
becomes 0.5, respiratory_cases 0 becomes 100, price_volatility 0 becomes 0.1
and supply_index 0 becomes 80. -/
theorem merged_state_defaults_on_falsy :
    ∀ (now : ℚ) (s : RealtimeState),
      (s.environmental_state.aqi = Option.some 0 → (get_merged_state now s).aqi = 100)
      ∧ (s.environmental_state.temperature = Option.some 0 →
          (get_merged_state now s).temperature = 25)
      ∧ (s.health_state.hospital_load = Option.some 0 →
          (get_merged_state now s).hospital_load = 1/2)
      ∧ (s.health_state.respiratory_cases = Option.some 0 →
          (get_merged_state now s).respiratory_cases = 100)
      ∧ (s.food_state.price_volatility = Option.some 0 →
          (get_merged_state now s).price_volatility = 1/10)
      ∧ (s.food_state.supply_index = Option.some 0 →
          (get_merged_state now s).crop_supply_index = 80) := by
  intro now s
  refine ⟨?_, ?_, ?_, ?_, ?_, ?_⟩ <;>
    · intro h
      simp [get_merged_state, pyOrQ, h]

/-- A state whose six observable fields all store a legitimate zero. -/
def allZeroState : RealtimeState :=
  { environmental_state := { aqi := Option.some 0, temperature := Option.some 0 }
    health_state := { hospital_load := Option.some 0, respiratory_cases := Option.some 0 }
    food_state := { price_volatility := Option.some 0, supply_index := Option.some 0 }
    prediction_history := []
    last_inference_time := 0 }

/-- C10 witness: the six substitutions at a state storing zeros. -/
theorem merged_state_defaults_on_falsy_witness :
    (get_merged_state 0 allZeroState).aqi = 100
    ∧ (get_merged_state 0 allZeroState).temperature = 25
    ∧ (get_merged_state 0 allZeroState).hospital_load = 1/2
    ∧ (get_merged_state 0 allZeroState).respiratory_cases = 100
    ∧ (get_merged_state 0 allZeroState).price_volatility = 1/10
    ∧ (get_merged_state 0 allZeroState).crop_supply_index = 80 :=
  ⟨(merged_state_defaults_on_falsy 0 allZeroState).1 rfl,
   (merged_state_defaults_on_falsy 0 allZeroState).2.1 rfl,
   (merged_state_defaults_on_falsy 0 allZeroState).2.2.1 rfl,
   (merged_state_defaults_on_falsy 0 allZeroState).2.2.2.1 rfl,
   (merged_state_defaults_on_falsy 0 allZeroState).2.2.2.2.1 rfl,
   (merged_state_defaults_on_falsy 0 allZeroState).2.2.2.2.2 rfl⟩

/-! Rate gate (C4). The executed-call times of any call sequence are spaced
at least half a second apart, which bounds any half-open one-second window
at two executions. -/

/-- A fixed classifier output used to instantiate theorems at a concrete
engine: the uniform three-class distribution. -/
def constClfOutput : ClfOutput :=
  { cls := "medium", dist := { low := 1/3, medium := 1/3, high := 1/3 }, confidence := 1/3 }

/-- A concrete engine returning the uniform distribution for every domain. -/
def constClf : Classifiers :=
  { env := fun _ => constClfOutput
    health := fun _ => constClfOutput
    food := fun _ => constClfOutput }

/-- Initial RealtimeStateManager state from __init__: empty slots, empty
history, last inference time zero. -/
def initState : RealtimeState :=
  { environmental_state := {}
    health_state := {}
    food_state := {}
    prediction_history := []
    last_inference_time := 0 }

/-- In a half-second-gap chain, every later element is at least half a
second after the head. -/
theorem gapChain_head_le : ∀ (l : List ℚ) (x : ℚ),
    List.Chain' (fun a b => a + 1/2 ≤ b) (x :: l) → ∀ y ∈ l, x + 1/2 ≤ y := by
  intro l
  induction l with
  | nil =>
    intro x _ y hy
    simp at hy
  | cons z zs ih =>
    intro x h y hy
    have h1 : x + 1/2 ≤ z := (List.chain'_cons.1 h).1
    have h2 := (List.chain'_cons.1 h).2
    rcases List.mem_cons.1 hy with rfl | hy2
    · exact h1
    · have := ih z h2 y hy2
      linarith

/-- A list whose consecutive elements are at least half a second apart has
at most two members in any half-open window of length one. -/
theorem gapChain_window_le_two : ∀ (l : List ℚ),
    List.Chain' (fun a b => a + 1/2 ≤ b) l →
    ∀ a : ℚ, l.countP (fun t => decide (a ≤ t ∧ t < a + 1)) ≤ 2 := by
  intro l
  induction l with
  | nil =>
    intro _ a
    simp
  | cons x xs ih =>
    intro h a
    have hxs : List.Chain' (fun a b => a + 1/2 ≤ b) xs := h.tail
    rw [List.countP_cons]
    by_cases hx : a ≤ x ∧ x < a + 1
    · have hcount : xs.countP (fun t => decide (a ≤ t ∧ t < a + 1)) ≤ 1 := by
        cases xs with
        | nil => simp
        | cons z zs =>
          have hz : x + 1/2 ≤ z := (List.chain'_cons.1 h).1
          have hall : ∀ y ∈ zs, z + 1/2 ≤ y := gapChain_head_le zs z hxs
          have hzero : zs.countP (fun t => decide (a ≤ t ∧ t < a + 1)) = 0 := by
            rw [List.countP_eq_zero]
            intro y hy
            have hyz := hall y hy
            simp only [decide_eq_true_eq, not_and, not_lt]
            intro _
            linarith [hx.1]
          rw [List.countP_cons, hzero]
          split <;> simp
      simp only [hx, and_self, decide_eq_true_eq, if_pos]
      omega
    · have : (decide (a ≤ x ∧ x < a + 1)) = false := by
        simpa using hx
      rw [this]
      simpa using ih hxs a

/-- Every executed inference during a call sequence happens at least half a
second after the gate timestamp at the start, and the executed times form a
half-second-gap chain. -/
theorem traceExec_gap (clf : Classifiers) : ∀ (ts : List ℚ) (s : RealtimeState),
    List.Chain' (fun a b => a + 1/2 ≤ b) (traceExec clf ts s)
    ∧ ∀ e ∈ traceExec clf ts s, s.last_inference_time + 1/2 ≤ e := by
  intro ts
  induction ts with
  | nil =>
    intro s
    exact ⟨List.chain'_nil, by simp [traceExec]⟩
  | cons t rest ih =>
    intro s
    by_cases hgate : t - s.last_inference_time < 1 / MAX_INFERENCE_RATE
    · have hrun : run_inference clf t s = (Option.none, s) := by
        unfold run_inference
        rw [if_pos hgate]
      have htr : traceExec clf (t :: rest) s = traceExec clf rest s := by
        simp [traceExec, hrun]
      rw [htr]
      exact ih s
    · have hsome : (run_inference clf t s).1.isSome = true := by
        unfold run_inference
        rw [if_neg hgate]
        rfl
      have hlast : (run_inference clf t s).2.last_inference_time = t := by
        unfold run_inference
        rw [if_neg hgate]
      have htr : traceExec clf (t :: rest) s =
          t :: traceExec clf rest (run_inference clf t s).2 := by
        simp [traceExec, hsome]
      have hhalf : (1:ℚ) / MAX_INFERENCE_RATE = 1/2 := by
        norm_num [MAX_INFERENCE_RATE]
      rw [hhalf] at hgate
      obtain ⟨ihc, ihall⟩ := ih (run_inference clf t s).2
      rw [htr]
      constructor
      · refine List.chain'_cons'.2 ⟨?_, ihc⟩
        intro y hy
        have hmem : y ∈ traceExec clf rest (run_inference clf t s).2 :=
          List.mem_of_mem_head? hy
        have := ihall y hmem
        rw [hlast] at this
        linarith
      · intro e he
        rcases List.mem_cons.1 he with rfl | he2
        · linarith [not_lt.1 hgate]
        · have := ihall e he2
          rw [hlast] at this
          have hts : s.last_inference_time + 1/2 ≤ t := by
            linarith [not_lt.1 hgate]
          linarith

/-- C4: a run_inference call arriving less than 1 / MAX_INFERENCE_RATE
seconds after the previous gate-passing call returns no prediction and
leaves the whole state, in particular the rolling history, unchanged;
consecutive executed inferences of any call sequence are at least half a
second apart; and any half-open one-second window contains at most
MAX_INFERENCE_RATE = 2 executed inferences. -/
theorem rate_gate_rejects_and_bounds :
    (∀ (clf : Classifiers) (now : ℚ) (s : RealtimeState),
        now - s.last_inference_time < 1 / MAX_INFERENCE_RATE →
        run_inference clf now s = (Option.none, s))
    ∧ (∀ (clf : Classifiers) (times : List ℚ) (s : RealtimeState),
        List.Chain' (fun a b => a + 1/2 ≤ b) (traceExec clf times s))
    ∧ (∀ (clf : Classifiers) (times : List ℚ) (s : RealtimeState) (a : ℚ),
        (traceExec clf times s).countP (fun t => decide (a ≤ t ∧ t < a + 1)) ≤ 2) := by
  refine ⟨?_, ?_, ?_⟩
  · intro clf now s h
    unfold run_inference
    rw [if_pos h]
  · intro clf times s
    exact (traceExec_gap clf times s).1
  · intro clf times s a
    exact gapChain_window_le_two _ (traceExec_gap clf times s).1 a

/-- C4 witness: the rejection conjunct applied at time 0 on the initial
state, whose gate gap 0 - 0 is under half a second. -/
theorem rate_gate_rejects_and_bounds_witness :
    run_inference constClf 0 initState = (Option.none, initState) :=
  rate_gate_rejects_and_bounds.1 constClf 0 initState
    (by norm_num [MAX_INFERENCE_RATE, initState])

/-! Resilience score (C1). The specification states round(...); the source
applies int(), which truncates. -/

/-- Specification wording of the resilience formula: round, then clamp to
the interval from 0 to 100. -/
def specResilienceRound (e h f : ℚ) : ℤ :=
  max 0 (min 100 (pyRound (100 * (1 - (35/100 * e + 40/100 * h + 25/100 * f)))))

/-- The formula the source implements: clamp, then Python int() truncation. -/
def specResilienceTrunc (e h f : ℚ) : ℤ :=
  pyTrunc (max 0 (min 100 (100 * (1 - (35/100 * e + 40/100 * h + 25/100 * f)))))

/-- C1 (amended): every prediction carries
resilience_score = int(clamp(100 * (1 - 0.35 Pe - 0.40 Ph - 0.25 Pf))),
truncation rather than rounding, where the probabilities are the per-domain
high probabilities of that same prediction. -/
theorem resilience_score_truncates :
    ∀ (clf : Classifiers) (m : MetricBag),
      (predict_cascading_risks clf m).resilience_score =
        specResilienceTrunc (predict_cascading_risks clf m).environmental.prob
          (predict_cascading_risks clf m).health.prob
          (predict_cascading_risks clf m).food_security.prob :=
  fun _ _ => rfl

/-- A concrete engine whose environmental high probability is 0.01, making
the resilience value 99.65: truncation gives 99 while rounding gives 100. -/
def clfC1 : Classifiers :=
  { env := fun _ =>
      { cls := "low", dist := { low := 99/100, medium := 0, high := 1/100 }, confidence := 99/100 }
    health := fun _ =>
      { cls := "low", dist := { low := 1, medium := 0, high := 0 }, confidence := 1 }
    food := fun _ =>
      { cls := "low", dist := { low := 1, medium := 0, high := 0 }, confidence := 1 } }

/-- C1 counterexample: at this prediction the returned resilience_score is
99 but the claimed round-based formula gives 100. -/
theorem resilience_round_claim_false_cex :
    (predict_cascading_risks clfC1 {}).resilience_score = 99
    ∧ specResilienceRound (predict_cascading_risks clfC1 {}).environmental.prob
        (predict_cascading_risks clfC1 {}).health.prob
        (predict_cascading_risks clfC1 {}).food_security.prob = 100
    ∧ (predict_cascading_risks clfC1 {}).resilience_score ≠
        specResilienceRound (predict_cascading_risks clfC1 {}).environmental.prob
          (predict_cascading_risks clfC1 {}).health.prob
          (predict_cascading_risks clfC1 {}).food_security.prob := by
  have hA : (predict_cascading_risks clfC1 {}).resilience_score = 99 := by
    show calculate_resilience_score (1/100) 0 0 = 99
    norm_num [calculate_resilience_score, RESILIENCE_WEIGHTS_env, RESILIENCE_WEIGHTS_health,
      RESILIENCE_WEIGHTS_food, pyTrunc, Rat.floor_def', max_def, min_def]
  have hB : specResilienceRound (predict_cascading_risks clfC1 {}).environmental.prob
      (predict_cascading_risks clfC1 {}).health.prob
      (predict_cascading_risks clfC1 {}).food_security.prob = 100 := by
    show specResilienceRound (1/100) 0 0 = 100
    norm_num [specResilienceRound, pyRound, Rat.floor_def', max_def, min_def]
  exact ⟨hA, hB, by rw [hA, hB]; decide⟩

/-! Realtime prediction record (C2). The record built by run_inference reads
the dictionary keys risk_level and high_prob, but predict_cascading_risks
returns the keys risk and prob, so the reads always miss and the record
carries the hardcoded defaults. -/

/-- A concrete engine returning clearly high risk for env and health. -/
def clfHigh : Classifiers :=
  { env := fun _ =>
      { cls := "high", dist := { low := 1/20, medium := 1/20, high := 9/10 }, confidence := 9/10 }
    health := fun _ =>
      { cls := "high", dist := { low := 1/10, medium := 1/10, high := 8/10 }, confidence := 8/10 }
    food := fun _ =>
      { cls := "medium", dist := { low := 3/10, medium := 1/2, high := 1/5 }, confidence := 1/2 } }

/-- A state with fresh high-stress observations in all three slots at time
1000 and an old gate timestamp, so the rate gate passes at time 1000. -/
def stressState : RealtimeState :=
  { environmental_state :=
      { aqi := Option.some 350, temperature := Option.some 40, humidity := Option.some 50,
        timestamp := Option.some 1000 }
    health_state :=
      { hospital_load := Option.some (9/10), respiratory_cases := Option.some 500,
        timestamp := Option.some 1000 }
    food_state :=
      { price_volatility := Option.some (2/5), supply_index := Option.some 45,
        timestamp := Option.some 1000 }
    prediction_history := []
    last_inference_time := 0 }

/-- C2: at a state where the cascading engine reports env and health risk
high with probabilities 0.9 and 0.8, the record appended by run_inference
still carries the defaults medium 0.5, low 0.2, low 0.1 for the risks and
probabilities, because its dictionary reads use the wrong key names; only
the confidence field correctly carries the data-freshness confidence of the
merged state (1 here, all slots fresh). -/
theorem run_inference_record_ignores_engine_output :
    (run_inference clfHigh 1000 stressState).1 =
      Option.some
        { timestamp := 1000
          environmental_risk := "medium", environmental_prob := 1/2
          health_risk := "low", health_prob := 1/5
          food_security_risk := "low", food_security_prob := 1/10
          confidence := get_confidence 1000 stressState }
    ∧ (predict_cascading_risks clfHigh
        (inferenceMetrics (get_merged_state 1000 stressState))).environmental.risk = "high"
    ∧ (predict_cascading_risks clfHigh
        (inferenceMetrics (get_merged_state 1000 stressState))).environmental.prob = 9/10
    ∧ (predict_cascading_risks clfHigh
        (inferenceMetrics (get_merged_state 1000 stressState))).health.risk = "high"
    ∧ (predict_cascading_risks clfHigh
        (inferenceMetrics (get_merged_state 1000 stressState))).health.prob = 8/10
    ∧ get_confidence 1000 stressState = 1 := by
  have hgate : ¬ ((1000:ℚ) - stressState.last_inference_time < 1 / MAX_INFERENCE_RATE) := by
    norm_num [stressState, MAX_INFERENCE_RATE]
  refine ⟨?_, rfl, rfl, rfl, rfl, ?_⟩
  · unfold run_inference
    rw [if_neg hgate]
    rfl
  · simp [get_confidence, freshnessConf, STALE_THRESHOLD, stressState]
    norm_num

/-! Threshold overrides (C3). The pinned distributions live in the
RiskEngine wrappers; the cascading inference path consults the classifier
unconditionally. -/

/-- Metric bag carrying the extreme aqi value 350. -/
def bag350 : MetricBag := { aqi := .num 350 }

/-- Metric bag carrying the extreme crop supply value 20. -/
def bag20 : MetricBag := { crop_supply_index := .num 20 }

/-- C3 counterexample: cascading inference on a metric bag with aqi 350 does
not return the pinned environmental distribution but whatever the
classifier returns (here the uniform distribution), and likewise for food
on crop supply 20, so no threshold override exists on the cascading path. -/
theorem cascading_no_threshold_override_cex :
    (predict_cascading_risks constClf bag350).environmental.probabilities.low = 1/3
    ∧ ¬ ((predict_cascading_risks constClf bag350).environmental.probabilities =
        { low := 2/100, medium := 8/100, high := 90/100 })
    ∧ (predict_cascading_risks constClf bag20).food_security.probabilities.low = 1/3
    ∧ ¬ ((predict_cascading_risks constClf bag20).food_security.probabilities =
        { low := 1/100, medium := 4/100, high := 95/100 }) := by
  refine ⟨rfl, ?_, rfl, ?_⟩
  · intro hcontra
    have hlow : (1:ℚ)/3 = 2/100 := congrArg Dist.low hcontra
    norm_num at hlow
  · intro hcontra
    have hlow : (1:ℚ)/3 = 1/100 := congrArg Dist.low hcontra
    norm_num at hlow

/-- C3 (amended): the threshold overrides live in the RiskEngine wrappers,
which pin the environmental prediction to the 0.02/0.08/0.90 distribution
with class high and confidence 0.99 whenever aqi exceeds 300 and the food
prediction to 0.01/0.04/0.95 with class high and confidence 0.99 whenever
crop supply is below 30, for every classifier; the cascading inference path
applies no override and always returns the classifier distributions. -/
theorem threshold_override_location :
    (∀ (clfEnv : EnvMetrics → ClfOutput) (aqi traffic_density temperature rainfall : ℚ),
        aqi > 300 →
        RiskEngine.predict_environmental clfEnv aqi traffic_density temperature rainfall =
          { risk_class := "high"
            probabilities := { low := 2/100, medium := 8/100, high := 90/100 }
            confidence := 99/100 })
    ∧ (∀ (clfFood : FoodMetrics → ClfOutput)
          (crop_supply_index food_price_index rainfall temperature supply_disruption_events : ℚ),
        crop_supply_index < 30 →
        RiskEngine.predict_food_security clfFood crop_supply_index food_price_index rainfall
            temperature supply_disruption_events =
          { risk_class := "high"
            probabilities := { low := 1/100, medium := 4/100, high := 95/100 }
            confidence := 99/100 })
    ∧ (∀ (clf : Classifiers) (m : MetricBag),
        (predict_cascading_risks clf m).environmental.probabilities =
            (clf.env (envFeaturesOf m)).dist
        ∧ (predict_cascading_risks clf m).food_security.probabilities =
            (clf.food (foodFeaturesOf m)).dist) := by
  refine ⟨?_, ?_, fun clf m => ⟨rfl, rfl⟩⟩
  · intro clfEnv a td te ra h
    unfold RiskEngine.predict_environmental
    rw [if_pos h]
  · intro clfFood cs fp ra te sd h
    unfold RiskEngine.predict_food_security
    rw [if_pos h]

/-- C3 witness: both override conjuncts applied at extreme inputs 350 and
20 with the uniform classifier. -/
theorem threshold_override_location_witness :
    RiskEngine.predict_environmental constClf.env 350 2 40 5 =
      { risk_class := "high"
        probabilities := { low := 2/100, medium := 8/100, high := 90/100 }
        confidence := 99/100 }
    ∧ RiskEngine.predict_food_security constClf.food 20 120 10 35 3 =
      { risk_class := "high"
        probabilities := { low := 1/100, medium := 4/100, high := 95/100 }
        confidence := 99/100 } :=
  ⟨threshold_override_location.1 constClf.env 350 2 40 5 (by decide),
   threshold_override_location.2.1 constClf.food 20 120 10 35 3 (by decide)⟩

/-! Preprocessing contract (C5): totality and determinism hold because the
embedding is a plain total function; here the output bounds and the
preservation of valid inputs are proved. -/

/-- Numeric content of a metric value; only used on fields known to hold a
number. -/
def PyVal.toQ : PyVal → ℚ
  | .num q => q
  | _ => 0

/-- Lower clip bound. -/
theorem le_clip (v lo hi : ℚ) : lo ≤ clip_to_range v lo hi := le_max_left _ _

/-- Upper clip bound, for a nonempty range. -/
theorem clip_le {lo hi : ℚ} (v : ℚ) (h : lo ≤ hi) : clip_to_range v lo hi ≤ hi :=
  max_le h (min_le_left _ _)

/-- Clipping fixes values already in range. -/
theorem clip_eq_self {v lo hi : ℚ} (h1 : lo ≤ v) (h2 : v ≤ hi) : clip_to_range v lo hi = v := by
  unfold clip_to_range
  rw [min_eq_right h2, max_eq_right h1]

/-- Bounds of a generic numeric field after preprocessing. -/
theorem procField_bounds (v : PyVal) {d lo hi : ℚ} (hd1 : lo ≤ d) (hd2 : d ≤ hi)
    (hlh : lo ≤ hi) : lo ≤ procField v d lo hi ∧ procField v d lo hi ≤ hi := by
  cases v with
  | bad => exact ⟨hd1, hd2⟩
  | missing => exact ⟨le_clip _ _ _, clip_le _ hlh⟩
  | nan => exact ⟨le_clip _ _ _, clip_le _ hlh⟩
  | num q => exact ⟨le_clip _ _ _, clip_le _ hlh⟩

/-- Bounds of the temperature field after preprocessing. -/
theorem procTempField_bounds (v : PyVal) {d lo hi : ℚ} (hd1 : lo ≤ d) (hd2 : d ≤ hi)
    (hlh : lo ≤ hi) : lo ≤ procTempField v d lo hi ∧ procTempField v d lo hi ≤ hi := by
  cases v with
  | bad => exact ⟨hd1, hd2⟩
  | missing => exact ⟨le_clip _ _ _, clip_le _ hlh⟩
  | nan => exact ⟨le_clip _ _ _, clip_le _ hlh⟩
  | num q => exact ⟨le_clip _ _ _, clip_le _ hlh⟩

/-- Bounds of the traffic density field after preprocessing. -/
theorem procTrafficField_bounds (v : PyVal) {d lo hi : ℚ} (hd1 : lo ≤ d) (hd2 : d ≤ hi)
    (hlh : lo ≤ hi) : lo ≤ procTrafficField v d lo hi ∧ procTrafficField v d lo hi ≤ hi := by
  cases v with
  | bad => exact ⟨hd1, hd2⟩
  | missing => exact ⟨le_clip _ _ _, clip_le _ hlh⟩
  | nan => exact ⟨le_clip _ _ _, clip_le _ hlh⟩
  | num q => exact ⟨le_clip _ _ _, clip_le _ hlh⟩

/-- Bounds of an integer-count field after preprocessing. -/
theorem procIntField_bounds (v : PyVal) {d lo hi : ℚ} (hd1 : lo ≤ d) (hd2 : d ≤ hi)
    (hlh : lo ≤ hi) : lo ≤ procIntField v d lo hi ∧ procIntField v d lo hi ≤ hi := by
  cases v with
  | bad => exact ⟨hd1, hd2⟩
  | missing => exact ⟨le_clip _ _ _, clip_le _ hlh⟩
  | nan => exact ⟨le_clip _ _ _, clip_le _ hlh⟩
  | num q => exact ⟨le_clip _ _ _, clip_le _ hlh⟩

/-- Bounds of the hospital load field after preprocessing. -/
theorem procLoadField_bounds (v : PyVal) {d lo hi : ℚ} (hd1 : lo ≤ d) (hd2 : d ≤ hi)
    (hlh : lo ≤ hi) : lo ≤ procLoadField v d lo hi ∧ procLoadField v d lo hi ≤ hi := by
  cases v with
  | bad => exact ⟨hd1, hd2⟩
  | missing => exact ⟨le_clip _ _ _, clip_le _ hlh⟩
  | nan => exact ⟨le_clip _ _ _, clip_le _ hlh⟩
  | num q => exact ⟨le_clip _ _ _, clip_le _ hlh⟩

/-- Documented ranges of the environmental feature slice. -/
def EnvMetrics.inDocumentedRange (e : EnvMetrics) : Prop :=
  0 ≤ e.aqi ∧ e.aqi ≤ 500 ∧ 0 ≤ e.traffic_density ∧ e.traffic_density ≤ 2
    ∧ 0 ≤ e.temperature ∧ e.temperature ≤ 50 ∧ 0 ≤ e.rainfall ∧ e.rainfall ≤ 200

/-- Documented ranges of the health feature slice. -/
def HealthMetrics.inDocumentedRange (e : HealthMetrics) : Prop :=
  0 ≤ e.aqi ∧ e.aqi ≤ 500 ∧ 0 ≤ e.hospital_load ∧ e.hospital_load ≤ 1
    ∧ 0 ≤ e.respiratory_cases ∧ e.respiratory_cases ≤ 10000
    ∧ 0 ≤ e.temperature ∧ e.temperature ≤ 50
    ∧ 0 ≤ e.environmental_risk_prob ∧ e.environmental_risk_prob ≤ 1

/-- Documented ranges of the food feature slice. -/
def FoodMetrics.inDocumentedRange (e : FoodMetrics) : Prop :=
  0 ≤ e.crop_supply_index ∧ e.crop_supply_index ≤ 100
    ∧ 50 ≤ e.food_price_index ∧ e.food_price_index ≤ 200
    ∧ 0 ≤ e.rainfall ∧ e.rainfall ≤ 200 ∧ 0 ≤ e.temperature ∧ e.temperature ≤ 50
    ∧ 0 ≤ e.supply_disruption_events ∧ e.supply_disruption_events ≤ 10

/-- A bag whose fields are all present, numeric, within documented ranges,
and integral where the field is integer-typed. -/
structure ValidBag (m : MetricBag) : Prop where
  aqi : ∃ q, m.aqi = .num q ∧ 0 ≤ q ∧ q ≤ 500
  traffic : m.traffic_density = .num 0 ∨ m.traffic_density = .num 1 ∨ m.traffic_density = .num 2
  temperature : ∃ q, m.temperature = .num q ∧ 0 ≤ q ∧ q ≤ 50
  rainfall : ∃ q, m.rainfall = .num q ∧ 0 ≤ q ∧ q ≤ 200
  hospital_load : ∃ q, m.hospital_load = .num q ∧ 0 ≤ q ∧ q ≤ 1
  respiratory_cases : ∃ q, m.respiratory_cases = .num q ∧ q.den = 1 ∧ 0 ≤ q ∧ q ≤ 10000
  environmental_risk_prob : ∃ q, m.environmental_risk_prob = .num q ∧ 0 ≤ q ∧ q ≤ 1
  crop_supply_index : ∃ q, m.crop_supply_index = .num q ∧ 0 ≤ q ∧ q ≤ 100
  food_price_index : ∃ q, m.food_price_index = .num q ∧ 50 ≤ q ∧ q ≤ 200
  supply_disruption_events :
    ∃ q, m.supply_disruption_events = .num q ∧ q.den = 1 ∧ 0 ≤ q ∧ q ≤ 10

/-- A generic in-range numeric field passes through unchanged. -/
theorem procField_valid (d : ℚ) {q lo hi : ℚ} (h1 : lo ≤ q) (h2 : q ≤ hi) :
    procField (.num q) d lo hi = q := clip_eq_self h1 h2

/-- An in-range Celsius temperature passes through unchanged: no Kelvin
detection fires below 200. -/
theorem procTempField_valid (d : ℚ) {q : ℚ} (h1 : 0 ≤ q) (h2 : q ≤ 50) :
    procTempField (.num q) d 0 50 = q := by
  simp only [procTempField]
  rw [if_neg (by linarith : ¬ q > 200)]
  exact clip_eq_self h1 h2

/-- An in-range hospital load ratio passes through unchanged: no percent
detection fires at or below 1. -/
theorem procLoadField_valid (d : ℚ) {q : ℚ} (h1 : 0 ≤ q) (h2 : q ≤ 1) :
    procLoadField (.num q) d 0 1 = q := by
  simp only [procLoadField]
  rw [if_neg (by linarith : ¬ q > 1)]
  exact clip_eq_self h1 h2

/-- A rational that is an integer survives the num/den cast. -/
theorem ratIntCast_of_den_one {q : ℚ} (hden : q.den = 1) : ((q.num : ℤ) : ℚ) = q := by
  have h := Rat.num_div_den q
  rw [hden] at h
  simpa using h

/-- Python int() fixes nonnegative integral rationals. -/
theorem pyTrunc_of_int {q : ℚ} (hden : q.den = 1) (hpos : 0 ≤ q) : ((pyTrunc q : ℤ) : ℚ) = q := by
  unfold pyTrunc
  rw [if_pos hpos, Rat.floor_def', hden]
  simpa using ratIntCast_of_den_one hden

/-- An in-range nonnegative integral count passes through unchanged. -/
theorem procIntField_valid (d : ℚ) {q hi : ℚ} (hden : q.den = 1) (h0 : 0 ≤ q) (h2 : q ≤ hi) :
    procIntField (.num q) d 0 hi = q := by
  simp only [procIntField]
  rw [pyTrunc_of_int hden h0]
  exact clip_eq_self h0 h2

/-- Traffic density 0 passes through unchanged. -/
theorem procTrafficField_zero (d : ℚ) : procTrafficField (.num 0) d 0 2 = 0 := by
  norm_num [procTrafficField, pyRound, Rat.floor_def', clip_to_range, max_def, min_def]

/-- Traffic density 1 passes through unchanged. -/
theorem procTrafficField_one (d : ℚ) : procTrafficField (.num 1) d 0 2 = 1 := by
  norm_num [procTrafficField, pyRound, Rat.floor_def', clip_to_range, max_def, min_def]

/-- Traffic density 2 passes through unchanged. -/
theorem procTrafficField_two (d : ℚ) : procTrafficField (.num 2) d 0 2 = 2 := by
  norm_num [procTrafficField, pyRound, Rat.floor_def', clip_to_range, max_def, min_def]

/-- C5: preprocessing is a total deterministic function (the embedding is a
plain Lean function on every constructor of every field); every output field
of every slice lies in the documented range for its domain; and a bag whose
fields are all present and valid is passed through unchanged. -/
theorem preprocessing_bounded_and_preserves_valid :
    (∀ m : MetricBag,
        (preprocess_environmental_metrics m).inDocumentedRange
        ∧ (preprocess_health_metrics m).inDocumentedRange
        ∧ (preprocess_food_metrics m).inDocumentedRange)
    ∧ (∀ m : MetricBag, ValidBag m →
        preprocess_all_metrics m =
          ({ aqi := m.aqi.toQ, traffic_density := m.traffic_density.toQ,
             temperature := m.temperature.toQ, rainfall := m.rainfall.toQ },
           { aqi := m.aqi.toQ, hospital_load := m.hospital_load.toQ,
             respiratory_cases := m.respiratory_cases.toQ, temperature := m.temperature.toQ,
             environmental_risk_prob := m.environmental_risk_prob.toQ },
           { crop_supply_index := m.crop_supply_index.toQ,
             food_price_index := m.food_price_index.toQ, rainfall := m.rainfall.toQ,
             temperature := m.temperature.toQ,
             supply_disruption_events := m.supply_disruption_events.toQ })) := by
  constructor
  · intro m
    refine ⟨⟨?_, ?_, ?_, ?_, ?_, ?_, ?_, ?_⟩, ⟨?_, ?_, ?_, ?_, ?_, ?_, ?_, ?_, ?_, ?_⟩,
      ⟨?_, ?_, ?_, ?_, ?_, ?_, ?_, ?_, ?_, ?_⟩⟩
    · exact (procField_bounds m.aqi (by norm_num) (by norm_num) (by norm_num)).1
    · exact (procField_bounds m.aqi (by norm_num) (by norm_num) (by norm_num)).2
    · exact (procTrafficField_bounds m.traffic_density (by norm_num) (by norm_num) (by norm_num)).1
    · exact (procTrafficField_bounds m.traffic_density (by norm_num) (by norm_num) (by norm_num)).2
    · exact (procTempField_bounds m.temperature (by norm_num) (by norm_num) (by norm_num)).1
    · exact (procTempField_bounds m.temperature (by norm_num) (by norm_num) (by norm_num)).2
    · exact (procField_bounds m.rainfall (by norm_num) (by norm_num) (by norm_num)).1
    · exact (procField_bounds m.rainfall (by norm_num) (by norm_num) (by norm_num)).2
    · exact (procField_bounds m.aqi (by norm_num) (by norm_num) (by norm_num)).1
    · exact (procField_bounds m.aqi (by norm_num) (by norm_num) (by norm_num)).2
    · exact (procLoadField_bounds m.hospital_load (by norm_num) (by norm_num) (by norm_num)).1
    · exact (procLoadField_bounds m.hospital_load (by norm_num) (by norm_num) (by norm_num)).2
    · exact (procIntField_bounds m.respiratory_cases (by norm_num) (by norm_num) (by norm_num)).1
    · exact (procIntField_bounds m.respiratory_cases (by norm_num) (by norm_num) (by norm_num)).2
    · exact (procTempField_bounds m.temperature (by norm_num) (by norm_num) (by norm_num)).1
    · exact (procTempField_bounds m.temperature (by norm_num) (by norm_num) (by norm_num)).2
    · exact (procField_bounds m.environmental_risk_prob (by norm_num) (by norm_num) (by norm_num)).1
    · exact (procField_bounds m.environmental_risk_prob (by norm_num) (by norm_num) (by norm_num)).2
    · exact (procField_bounds m.crop_supply_index (by norm_num) (by norm_num) (by norm_num)).1
    · exact (procField_bounds m.crop_supply_index (by norm_num) (by norm_num) (by norm_num)).2
    · exact (procField_bounds m.food_price_index (by norm_num) (by norm_num) (by norm_num)).1
    · exact (procField_bounds m.food_price_index (by norm_num) (by norm_num) (by norm_num)).2
    · exact (procField_bounds m.rainfall (by norm_num) (by norm_num) (by norm_num)).1
    · exact (procField_bounds m.rainfall (by norm_num) (by norm_num) (by norm_num)).2
    · exact (procTempField_bounds m.temperature (by norm_num) (by norm_num) (by norm_num)).1
    · exact (procTempField_bounds m.temperature (by norm_num) (by norm_num) (by norm_num)).2
    · exact (procIntField_bounds m.supply_disruption_events (by norm_num) (by norm_num) (by norm_num)).1
    · exact (procIntField_bounds m.supply_disruption_events (by norm_num) (by norm_num) (by norm_num)).2
  · intro m hv
    obtain ⟨qa, ha, ha0, ha5⟩ := hv.aqi
    obtain ⟨qt, hte, ht0, ht50⟩ := hv.temperature
    obtain ⟨qr, hra, hr0, hr200⟩ := hv.rainfall
    obtain ⟨ql, hhl, hl0, hl1⟩ := hv.hospital_load
    obtain ⟨qc, hrc, hcden, hc0, hc10000⟩ := hv.respiratory_cases
    obtain ⟨qe, herp, he0, he1⟩ := hv.environmental_risk_prob
    obtain ⟨qs, hcs, hs0, hs100⟩ := hv.crop_supply_index
    obtain ⟨qf, hfp, hf50, hf200⟩ := hv.food_price_index
    obtain ⟨qd, hsd, hdden, hd0, hd10⟩ := hv.supply_disruption_events
    rcases hv.traffic with ht | ht | ht <;>
      simp only [preprocess_all_metrics, preprocess_environmental_metrics,
        preprocess_health_metrics, preprocess_food_metrics, ha, hte, hra, hhl, hrc, herp,
        hcs, hfp, hsd, ht, PyVal.toQ,
        procField_valid 100 ha0 ha5, procTempField_valid 30 ht0 ht50,
        procField_valid 20 hr0 hr200, procField_valid 40 hr0 hr200,
        procLoadField_valid (65/100) hl0 hl1, procIntField_valid 200 hcden hc0 hc10000,
        procField_valid (1/2) he0 he1, procField_valid 75 hs0 hs100,
        procField_valid 100 hf50 hf200, procIntField_valid 1 hdden hd0 hd10,
        procTrafficField_zero, procTrafficField_one, procTrafficField_two]

/-- A fully populated valid bag used to instantiate C5. -/
def validBagW : MetricBag :=
  { aqi := .num 150, traffic_density := .num 2, temperature := .num 40, rainfall := .num 20,
    hospital_load := .num 1, respiratory_cases := .num 300, environmental_risk_prob := .num 1,
    crop_supply_index := .num 80, food_price_index := .num 120,
    supply_disruption_events := .num 3 }

/-- C5 witness: the identity conjunct applied at the valid bag above, with
each validity hypothesis discharged at the concrete values. -/
theorem preprocessing_bounded_and_preserves_valid_witness :
    preprocess_all_metrics validBagW =
      ({ aqi := 150, traffic_density := 2, temperature := 40, rainfall := 20 },
       { aqi := 150, hospital_load := 1, respiratory_cases := 300, temperature := 40,
         environmental_risk_prob := 1 },
       { crop_supply_index := 80, food_price_index := 120, rainfall := 20, temperature := 40,
         supply_disruption_events := 3 }) :=
  preprocessing_bounded_and_preserves_valid.2 validBagW
    { aqi := ⟨150, rfl, by norm_num, by norm_num⟩
      traffic := Or.inr (Or.inr rfl)
      temperature := ⟨40, rfl, by norm_num, by norm_num⟩
      rainfall := ⟨20, rfl, by norm_num, by norm_num⟩
      hospital_load := ⟨1, rfl, by norm_num, by norm_num⟩
      respiratory_cases := ⟨300, rfl, by norm_num, by norm_num, by norm_num⟩
      environmental_risk_prob := ⟨1, rfl, by norm_num, by norm_num⟩
      crop_supply_index := ⟨80, rfl, by norm_num, by norm_num⟩
      food_price_index := ⟨120, rfl, by norm_num, by norm_num⟩
      supply_disruption_events := ⟨3, rfl, by norm_num, by norm_num, by norm_num⟩ }

/-! Extraction confidence (C7). -/

/-- Specification wording of the confidence label from a match count. -/
def confLabel (n : ℕ) : String :=
  if 2 ≤ n then "high" else if n = 1 then "medium" else "low"

/-- Every matched event name is a key of its keyword table. -/
theorem matchedEvents_sub {tbl : List (String × List String)} {p : List Char} {x : String}
    (hx : x ∈ matchedEvents tbl p) : x ∈ tbl.map Prod.fst := by
  unfold matchedEvents at hx
  obtain ⟨e, he, rfl⟩ := List.mem_map.1 hx
  exact List.mem_map.2 ⟨e, (List.mem_filter.1 he).1, rfl⟩

/-- The sentinel none is not a primary-event key, so the matched list never
equals the sentinel list. -/
theorem matchedEvents_ne_none_list (p : List Char) :
    matchedEvents primaryEventsKw p ≠ ["none"] := by
  intro hcontra
  have hmem : "none" ∈ matchedEvents primaryEventsKw p := by
    rw [hcontra]
    exact List.mem_singleton_self _
  have hkeys := matchedEvents_sub hmem
  revert hkeys
  decide

/-- C7 (amended): for ScenarioDeltas.extract_scenario_signals the
confidence label is computed from the matches across primary events and
secondary impacts plus one extra count when the extracted severity differs
from moderate; for ScenarioInterpreter.extract_signals it is computed from
the primary and secondary matches alone, exactly as the claim states.
Duration matches never contribute in either variant. -/
theorem extraction_confidence_formula :
    (∀ prompt : String,
      (ScenarioDeltas.extract_scenario_signals prompt).confidence =
        confLabel
          ((if (ScenarioDeltas.extract_scenario_signals prompt).primary_events = ["none"] then 0
            else (ScenarioDeltas.extract_scenario_signals prompt).primary_events.length)
          + (ScenarioDeltas.extract_scenario_signals prompt).secondary_impacts.length
          + (if (ScenarioDeltas.extract_scenario_signals prompt).severity = "moderate"
              then 0 else 1)))
    ∧ (∀ prompt : String,
      (ScenarioInterpreter.extract_signals prompt).confidence =
        confLabel
          ((if (ScenarioInterpreter.extract_signals prompt).primary_events = ["none"] then 0
            else (ScenarioInterpreter.extract_signals prompt).primary_events.length)
          + (ScenarioInterpreter.extract_signals prompt).secondary_impacts.length)) := by
  constructor
  · intro prompt
    simp only [ScenarioDeltas.extract_scenario_signals, confLabel]
    by_cases hemp : (matchedEvents primaryEventsKw (lowerChars prompt)).isEmpty
    · have hnil : matchedEvents primaryEventsKw (lowerChars prompt) = [] :=
        List.isEmpty_iff.1 hemp
      simp [hemp, hnil]
    · have hne : matchedEvents primaryEventsKw (lowerChars prompt) ≠ ["none"] :=
        matchedEvents_ne_none_list (lowerChars prompt)
      simp [hemp, hne]
  · intro prompt
    simp only [ScenarioInterpreter.extract_signals, confLabel]
    by_cases hemp : (matchedEvents primaryEventsKw (lowerChars prompt)).isEmpty
    · have hnil : matchedEvents primaryEventsKw (lowerChars prompt) = [] :=
        List.isEmpty_iff.1 hemp
      simp [hemp, hnil]
    · have hne : matchedEvents primaryEventsKw (lowerChars prompt) ≠ ["none"] :=
        matchedEvents_ne_none_list (lowerChars prompt)
      simp [hemp, hne]

/-- C7 counterexample: the prompt severe matches no primary event and no
secondary impact, yet the extractor reports medium confidence because the
detected high severity counts toward the match count; the claim demands low
confidence at zero primary and secondary matches. -/
theorem extraction_confidence_claim_false_cex :
    (ScenarioDeltas.extract_scenario_signals "severe").primary_events = ["none"]
    ∧ (ScenarioDeltas.extract_scenario_signals "severe").secondary_impacts = []
    ∧ (ScenarioDeltas.extract_scenario_signals "severe").severity = "high"
    ∧ (ScenarioDeltas.extract_scenario_signals "severe").confidence = "medium"
    ∧ "medium" ≠ "low" := by
  refine ⟨rfl, rfl, rfl, rfl, by decide⟩

/-! Delta composition (C6). -/

/-- Componentwise sum of two delta rows. -/
def Deltas.add (a b : Deltas) : Deltas :=
  { aqi_delta := a.aqi_delta + b.aqi_delta
    temperature_delta := a.temperature_delta + b.temperature_delta
    hospital_load_delta := a.hospital_load_delta + b.hospital_load_delta
    crop_supply_delta := a.crop_supply_delta + b.crop_supply_delta }

/-- The zero delta row. -/
def Deltas.zero : Deltas :=
  { aqi_delta := 0, temperature_delta := 0, hospital_load_delta := 0, crop_supply_delta := 0 }

/-- Sum of a list of delta rows. -/
def Deltas.listSum (l : List Deltas) : Deltas := l.foldr Deltas.add Deltas.zero

/-- Right identity of the delta sum. -/
theorem Deltas.add_zero_right (a : Deltas) : Deltas.add a Deltas.zero = a := by
  simp [Deltas.add, Deltas.zero]

/-- Left identity of the delta sum, phrased on the literal zero row the
source folds start from. -/
theorem Deltas.add_zero_left (a : Deltas) :
    Deltas.add
      { aqi_delta := 0, temperature_delta := 0, hospital_load_delta := 0, crop_supply_delta := 0 }
      a = a := by
  simp [Deltas.add]

/-- Associativity of the delta sum. -/
theorem Deltas.add_assoc (a b c : Deltas) :
    Deltas.add (Deltas.add a b) c = Deltas.add a (Deltas.add b c) := by
  simp only [Deltas.add, Deltas.mk.injEq]
  refine ⟨by ring, by ring, by ring, by ring⟩

/-- Two delta rows agreeing on every component are equal. -/
theorem Deltas.ext_mk {a b : Deltas} (h1 : a.aqi_delta = b.aqi_delta)
    (h2 : a.temperature_delta = b.temperature_delta)
    (h3 : a.hospital_load_delta = b.hospital_load_delta)
    (h4 : a.crop_supply_delta = b.crop_supply_delta) : a = b := by
  cases a
  cases b
  simp_all

/-- A left fold whose step adds a per-element contribution equals the
initial row plus the sum of the mapped contributions. -/
theorem foldl_add_eq_sum {α : Type} {step : Deltas → α → Deltas} {g : α → Deltas}
    (hstep : ∀ d e, step d e = Deltas.add d (g e)) :
    ∀ (l : List α) (init : Deltas),
      l.foldl step init = Deltas.add init (Deltas.listSum (l.map g)) := by
  intro l
  induction l with
  | nil =>
    intro init
    simp [Deltas.listSum, Deltas.add_zero_right]
  | cons x xs ih =>
    intro init
    simp only [List.foldl_cons, List.map_cons, Deltas.listSum, List.foldr_cons]
    rw [hstep, ih]
    show Deltas.add (Deltas.add init (g x)) (Deltas.listSum (xs.map g)) = _
    rw [Deltas.add_assoc]
    rfl

/-- Specification base-impact table of section 4.E. -/
def specBaseRow (event : String) : ℚ × ℚ × ℚ × ℚ :=
  if event = "flood" then (-10, -4, 12, -8)
  else if event = "heatwave" then (25, 5, 15, -10)
  else if event = "pollution" then (100, 1, 10, -2)
  else if event = "drought" then (15, 3, 8, -25)
  else if event = "cyclone" then (-15, -3, 20, -15)
  else (0, 0, 0, 0)

/-- Specification uniform per-event contribution: the base row scaled by the
severity multiplier, hospital and food additionally by the duration
multiplier, temperature by the severity-only rule with the 1.2 bonus for
heatwave at high severity. -/
def specEventDelta (severity duration event : String) : Deltas :=
  { aqi_delta := (specBaseRow event).1 * sevMult severity
    temperature_delta := (specBaseRow event).2.1 *
      (if severity = "high" ∧ event = "heatwave" then 6/5 else 1)
    hospital_load_delta := (specBaseRow event).2.2.1 * sevMult severity * durMult duration
    crop_supply_delta := (specBaseRow event).2.2.2 * sevMult severity * durMult duration }

/-- Specification fixed secondary rows: transport raises hospital 15 and
lowers food 5, access reduction raises hospital 25, food supply disruption
lowers food 10, anything else contributes nothing. -/
def specSecondaryDelta (impact : String) : Deltas :=
  if impact = "transport_disruption" then
    { aqi_delta := 0, temperature_delta := 0, hospital_load_delta := 15, crop_supply_delta := -5 }
  else if impact = "hospital_access_reduction" then
    { aqi_delta := 0, temperature_delta := 0, hospital_load_delta := 25, crop_supply_delta := 0 }
  else if impact = "food_supply_disruption" then
    { aqi_delta := 0, temperature_delta := 0, hospital_load_delta := 0, crop_supply_delta := -10 }
  else Deltas.zero

/-- The per-event contribution actually applied by
ScenarioDeltas.get_deltas_from_signals: the multipliers vary by event. -/
def specDeltasEventDelta (severity duration event : String) : Deltas :=
  let s := sevMult severity
  let d := durMult duration
  if event = "flood" then
    { aqi_delta := -10 * s, temperature_delta := -4 * s,
      hospital_load_delta := 12 * s * d, crop_supply_delta := -8 * s * d }
  else if event = "heatwave" then
    { aqi_delta := 25 * s,
      temperature_delta := 5 * (if severity = "high" then 6/5 else 1),
      hospital_load_delta := 15 * s * d, crop_supply_delta := -10 * d }
  else if event = "pollution" then
    { aqi_delta := 100 * s, temperature_delta := 1,
      hospital_load_delta := 10 * s, crop_supply_delta := -2 }
  else if event = "drought" then
    { aqi_delta := 15 * s, temperature_delta := 3,
      hospital_load_delta := 8 * d, crop_supply_delta := -25 * d }
  else if event = "cyclone" then
    { aqi_delta := -15 * s, temperature_delta := -3,
      hospital_load_delta := 20 * s, crop_supply_delta := -15 * s }
  else Deltas.zero

/-- The hand-written event branch adds exactly its per-event contribution. -/
theorem deltasEventStep_eq (severity duration : String) (d : Deltas) (e : String) :
    deltasEventStep severity (sevMult severity) (durMult duration) d e =
      Deltas.add d (specDeltasEventDelta severity duration e) := by
  unfold deltasEventStep specDeltasEventDelta Deltas.zero
  split_ifs <;> refine Deltas.ext_mk ?_ ?_ ?_ ?_ <;>
    simp only [Deltas.add] <;> ring

/-- The table-driven event branch adds exactly the uniform contribution. -/
theorem interpEventStep_eq (severity duration : String) (d : Deltas) (e : String) :
    interpEventStep severity (sevMult severity) (durMult duration) d e =
      Deltas.add d (specEventDelta severity duration e) := by
  unfold interpEventStep specEventDelta baseImpacts specBaseRow
  split_ifs <;> refine Deltas.ext_mk ?_ ?_ ?_ ?_ <;>
    simp only [Deltas.add, Option.getD_some, Option.getD_none]

/-- The table-driven secondary branch adds exactly the fixed row. -/
theorem interpSecondaryStep_eq (d : Deltas) (impact : String) :
    ({ d with hospital_load_delta := d.hospital_load_delta + (interpSecondaryRow impact).1,
              crop_supply_delta := d.crop_supply_delta + (interpSecondaryRow impact).2 } : Deltas) =
      Deltas.add d (specSecondaryDelta impact) := by
  unfold interpSecondaryRow specSecondaryDelta Deltas.zero
  split_ifs <;> refine Deltas.ext_mk ?_ ?_ ?_ ?_ <;>
    simp only [Deltas.add] <;> ring

/-- C6 (amended): ScenarioSimulator.get_deltas implements exactly the
claimed compositional rule (base row times severity multiplier, hospital and
food additionally times the duration multiplier, temperature by the
severity-only rule, summed over all primary events plus fixed secondary
rows); ScenarioDeltas.get_deltas_from_signals, the variant wired to the API,
sums per-event contributions whose multipliers vary by event (flood uses
severity times duration on hospital and food, heatwave omits severity on
food, pollution omits duration on hospital and severity and duration on
food, drought omits severity on both, cyclone omits duration on both) and
adds each fixed secondary row at most once via membership tests. -/
theorem delta_engines_event_composition :
    (∀ signals : ScenarioSignals,
      ScenarioSimulator.get_deltas signals =
        Deltas.add
          (Deltas.listSum
            ((if signals.primary_events = ["none"] then [] else signals.primary_events).map
              (specEventDelta signals.severity signals.duration)))
          (Deltas.listSum (signals.secondary_impacts.map specSecondaryDelta)))
    ∧ (∀ signals : ScenarioSignals,
      ScenarioDeltas.get_deltas_from_signals signals =
        Deltas.add
          (Deltas.listSum
            ((activeEvents signals.primary_events).map
              (specDeltasEventDelta signals.severity signals.duration)))
          { aqi_delta := 0, temperature_delta := 0,
            hospital_load_delta :=
              (if "transport_disruption" ∈ signals.secondary_impacts then 15 else 0) +
                (if "hospital_access_reduction" ∈ signals.secondary_impacts then 25 else 0),
            crop_supply_delta :=
              (if "transport_disruption" ∈ signals.secondary_impacts then -5 else 0) +
                (if "food_supply_disruption" ∈ signals.secondary_impacts then -10 else 0) }) := by
  constructor
  · intro signals
    simp only [ScenarioSimulator.get_deltas]
    rw [foldl_add_eq_sum (fun d e => interpEventStep_eq signals.severity signals.duration d e),
      foldl_add_eq_sum (fun d e => interpSecondaryStep_eq d e),
      Deltas.add_zero_left]
  · intro signals
    simp only [ScenarioDeltas.get_deltas_from_signals]
    rw [foldl_add_eq_sum (fun d e => deltasEventStep_eq signals.severity signals.duration d e),
      Deltas.add_zero_left]
    simp only [List.contains, List.elem_eq_mem, decide_eq_true_eq]
    by_cases h1 : "transport_disruption" ∈ signals.secondary_impacts <;>
      by_cases h2 : "hospital_access_reduction" ∈ signals.secondary_impacts <;>
        by_cases h3 : "food_supply_disruption" ∈ signals.secondary_impacts <;>
          simp only [h1, h2, h3, if_true, if_false] <;>
            refine Deltas.ext_mk ?_ ?_ ?_ ?_ <;> simp only [Deltas.add] <;> ring

/-- Signals used by the C6 counterexample: a high-severity prolonged
drought. -/
def sigDroughtHP : ScenarioSignals :=
  { primary_events := ["drought"], duration := "prolonged", severity := "high",
    secondary_impacts := [], confidence := "high" }

/-- C6 counterexample: for a high-severity prolonged drought the claimed
rule gives a hospital contribution of 8 x 1.5 x 1.5 = 18, but the API delta
engine computes 8 x 1.5 = 12 (the drought hospital term ignores the
severity multiplier). -/
theorem deltas_uniform_multiplier_claim_false_cex :
    (ScenarioDeltas.get_deltas_from_signals sigDroughtHP).hospital_load_delta = 12
    ∧ (8:ℚ) * sevMult "high" * durMult "prolonged" = 18
    ∧ (12:ℚ) ≠ 18 := by
  refine ⟨?_, ?_, by norm_num⟩
  · have hval : (ScenarioDeltas.get_deltas_from_signals sigDroughtHP).hospital_load_delta =
        0 + 8 * (3/2) := rfl
    rw [hval]
    norm_num
  · rw [show sevMult "high" = 3/2 from rfl, show durMult "prolonged" = 3/2 from rfl]
    norm_num

end AuHack
